import Mathlib

/-!
Verification development for the inspect-mcp inspection pipeline.

The definitions below are a shallow embedding of `src/inspector.ts`.
JavaScript numbers are modelled as `ℚ` where the code only uses field
arithmetic, comparisons, `min`/`max` and absolute values, and as `ℝ`
where `Math.sqrt` is involved.  Fallible effectful code is modelled by
explicit state passing together with an oracle that decides which
protocol round trips fail.
-/

namespace InspectMcp

/-- Axis-aligned rectangle `{x, y, width, height}` (src/types.ts `Rect`). -/
structure Rect (α : Type) where
  x : α
  y : α
  width : α
  height : α
  deriving DecidableEq, Repr

/-- Four-layer box model (src/types.ts `BoxModel`). -/
structure BoxModel (α : Type) where
  content : Rect α
  padding : Rect α
  border : Rect α
  margin : Rect α
  deriving DecidableEq, Repr

/-- Edge widths `{top, right, bottom, left}` as reported per side. -/
structure EdgeWidths (α : Type) where
  top : α
  right : α
  bottom : α
  left : α
  deriving DecidableEq, Repr

/-- Raw per-element measurement bundle (src/types.ts `ElementMetrics`):
a viewport-space bounding rectangle plus margin/padding/border widths. -/
structure ElementMetrics (α : Type) where
  viewport : Rect α
  margin : EdgeWidths α
  padding : EdgeWidths α
  border : EdgeWidths α
  deriving DecidableEq, Repr

/-- Embedding of `convertElementMetricsToBoxModel` (src/inspector.ts lines 77-113).
The bounding rect is taken as the border box; margin expands it, padding and
content shrink it.  The source performs plain arithmetic with no clamping. -/
def convertElementMetricsToBoxModel (metrics : ElementMetrics ℚ) : BoxModel ℚ :=
  let borderBox := metrics.viewport
  { margin :=
      { x := borderBox.x - metrics.margin.left
        y := borderBox.y - metrics.margin.top
        width := borderBox.width + metrics.margin.left + metrics.margin.right
        height := borderBox.height + metrics.margin.top + metrics.margin.bottom }
    border :=
      { x := borderBox.x
        y := borderBox.y
        width := borderBox.width
        height := borderBox.height }
    padding :=
      { x := borderBox.x + metrics.border.left
        y := borderBox.y + metrics.border.top
        width := borderBox.width - metrics.border.left - metrics.border.right
        height := borderBox.height - metrics.border.top - metrics.border.bottom }
    content :=
      { x := borderBox.x + metrics.border.left + metrics.padding.left
        y := borderBox.y + metrics.border.top + metrics.padding.top
        width := borderBox.width - metrics.border.left - metrics.border.right
          - metrics.padding.left - metrics.padding.right
        height := borderBox.height - metrics.border.top - metrics.border.bottom
          - metrics.padding.top - metrics.padding.bottom } }

/-- Embedding of `scaleRect` (src/inspector.ts lines 314-322).  The source's
optional `scaleY` argument is always supplied at both call sites, so it is a
mandatory argument here. -/
def scaleRect (rect : Rect ℚ) (scaleX scaleY : ℚ) : Rect ℚ :=
  { x := rect.x * scaleX
    y := rect.y * scaleY
    width := rect.width * scaleX
    height := rect.height * scaleY }

/-- Embedding of `adjustRect` (src/inspector.ts lines 324-331): subtract the
clip origin from x/y, clamping to at least 0; width/height are unchanged. -/
def adjustRect (rect : Rect ℚ) (clip : Rect ℚ) : Rect ℚ :=
  { x := max 0 (rect.x - clip.x)
    y := max 0 (rect.y - clip.y)
    width := rect.width
    height := rect.height }

/-- Coordinate-transformation pipeline of `drawHighlightOnScreenshot`
(src/inspector.ts lines 230-285, steps 1-3): compute expected dimensions
(clip dimensions when clipped, else viewport), derive the scale factors from
the actual image size, scale every rect when either factor deviates from 1 by
more than 0.01, and afterwards subtract the (similarly scaled) clip origin. -/
def transformBoxModelForScreenshot (boxModel : BoxModel ℚ) (viewportW viewportH : ℚ)
    (clipRegion : Option (Rect ℚ)) (imageW imageH : ℚ) : BoxModel ℚ :=
  let expectedWidth := match clipRegion with
    | some c => c.width
    | none => viewportW
  let expectedHeight := match clipRegion with
    | some c => c.height
    | none => viewportH
  let actualScaleX := imageW / expectedWidth
  let actualScaleY := imageH / expectedHeight
  let adjusted1 :=
    if |actualScaleX - 1| > 1/100 ∨ |actualScaleY - 1| > 1/100 then
      { content := scaleRect boxModel.content actualScaleX actualScaleY
        padding := scaleRect boxModel.padding actualScaleX actualScaleY
        border := scaleRect boxModel.border actualScaleX actualScaleY
        margin := scaleRect boxModel.margin actualScaleX actualScaleY }
    else boxModel
  match clipRegion with
  | none => adjusted1
  | some clip =>
    let scaledClip :=
      if |actualScaleX - 1| > 1/100 ∨ |actualScaleY - 1| > 1/100 then
        Rect.mk (clip.x * actualScaleX) (clip.y * actualScaleY)
          (clip.width * actualScaleX) (clip.height * actualScaleY)
      else clip
    { content := adjustRect adjusted1.content scaledClip
      padding := adjustRect adjusted1.padding scaledClip
      border := adjustRect adjusted1.border scaledClip
      margin := adjustRect adjusted1.margin scaledClip }

/-- Spec stage 1 primitive: multiply a rect's x/y/width/height by the
respective scale factors. -/
def specScaleRect (r : Rect ℚ) (sx sy : ℚ) : Rect ℚ :=
  ⟨r.x * sx, r.y * sy, r.width * sx, r.height * sy⟩

/-- Spec stage 2 primitive: subtract the clip origin from a rect's x/y,
clamping to at least 0. -/
def specClipShift (r : Rect ℚ) (ox oy : ℚ) : Rect ℚ :=
  ⟨max 0 (r.x - ox), max 0 (r.y - oy), r.width, r.height⟩

/-- Apply one rect transform to every layer of a box model. -/
def specOnEachRect (f : Rect ℚ → Rect ℚ) (b : BoxModel ℚ) : BoxModel ℚ :=
  ⟨f b.content, f b.padding, f b.border, f b.margin⟩

/-- Transcription of the spec's `transformForScreenshot` contract (spec §4.1):
scale factors are actual image dimensions over the expected ones (the clip's
when clipped, else the viewport's); when either factor deviates from 1 by
more than a small epsilon every rect is scaled; afterwards, when clipped,
the (similarly scaled) clip origin is subtracted with clamping to 0 — that
order, device-scale first, clip-offset second. -/
def transformForScreenshotSpec (boxModel : BoxModel ℚ) (viewportW viewportH : ℚ)
    (clipRegion : Option (Rect ℚ)) (imageW imageH : ℚ) : BoxModel ℚ :=
  let expectedWidth := match clipRegion with
    | some c => c.width
    | none => viewportW
  let expectedHeight := match clipRegion with
    | some c => c.height
    | none => viewportH
  let sx := imageW / expectedWidth
  let sy := imageH / expectedHeight
  let stage1 :=
    if |sx - 1| > 1/100 ∨ |sy - 1| > 1/100 then
      specOnEachRect (fun r => specScaleRect r sx sy) boxModel
    else boxModel
  match clipRegion with
  | none => stage1
  | some clip =>
    let ox := if |sx - 1| > 1/100 ∨ |sy - 1| > 1/100 then clip.x * sx else clip.x
    let oy := if |sx - 1| > 1/100 ∨ |sy - 1| > 1/100 then clip.y * sy else clip.y
    specOnEachRect (fun r => specClipShift r ox oy) stage1

/-- CDP quad `[x1, y1, x2, y2, x3, y3, x4, y4]` of four corner points. -/
structure Quad (α : Type) where
  p0 : α
  p1 : α
  p2 : α
  p3 : α
  p4 : α
  p5 : α
  p6 : α
  p7 : α
  deriving DecidableEq, Repr

/-- Embedding of `quadToRect` (src/inspector.ts lines 1097-1110): x/y are the
minima of the quad's x/y coordinates, width/height the max minus min. -/
def quadToRect (quad : Quad ℚ) : Rect ℚ :=
  let x := min (min quad.p0 quad.p2) (min quad.p4 quad.p6)
  let y := min (min quad.p1 quad.p3) (min quad.p5 quad.p7)
  let maxX := max (max quad.p0 quad.p2) (max quad.p4 quad.p6)
  let maxY := max (max quad.p1 quad.p3) (max quad.p5 quad.p7)
  { x := x, y := y, width := maxX - x, height := maxY - y }

/-- CDP box model payload: one quad per layer (`DOM.getBoxModel` result). -/
structure CdpBoxModel (α : Type) where
  content : Quad α
  padding : Quad α
  border : Quad α
  margin : Quad α
  deriving DecidableEq, Repr

/-- Embedding of `convertBoxModel` (src/inspector.ts lines 1081-1095). -/
def convertBoxModel (cdpBoxModel : CdpBoxModel ℚ) : BoxModel ℚ :=
  { content := quadToRect cdpBoxModel.content
    padding := quadToRect cdpBoxModel.padding
    border := quadToRect cdpBoxModel.border
    margin := quadToRect cdpBoxModel.margin }

/-- Metrics input with a 20px left padding on a 10px-wide rect: the derived
content width is negative and the source keeps it negative. -/
def inconsistentMetrics : ElementMetrics ℚ :=
  { viewport := ⟨0, 0, 10, 10⟩
    margin := ⟨0, 0, 0, 0⟩
    padding := ⟨0, 0, 0, 20⟩
    border := ⟨0, 0, 0, 0⟩ }

/-- JavaScript's `\w` character class: ASCII letters, digits and underscore. -/
def isJsWordChar (c : Char) : Bool :=
  c.isAlpha || c.isDigit || c = '_'

/-- Character class `[\w-]`. -/
def isWordDashChar (c : Char) : Bool :=
  isJsWordChar c || c = '-'

/-- Character class `[\w\-="':]` used inside attribute selectors.  The single
quote is written via its code point 39. -/
def isAttrBodyChar (c : Char) : Bool :=
  isJsWordChar c || c = '-' || c = '=' || c = '"' || c = Char.ofNat 39 || c = ':'

/-- Global-match counter for the regex `/#[\w-]+/g` (the `ids` count of
`calculateSpecificity`): at a `#` the engine consumes a maximal nonempty
`[\w-]` run and resumes after it, otherwise it advances one character.
The fuel argument bounds recursion and is instantiated with the input length. -/
def countIdMatches : ℕ → List Char → ℕ
  | 0, _ => 0
  | _, [] => 0
  | fuel + 1, c :: rest =>
    if c = '#' then
      let run := rest.takeWhile isWordDashChar
      if run.isEmpty then countIdMatches fuel rest
      else 1 + countIdMatches fuel (rest.drop run.length)
    else countIdMatches fuel rest

/-- Match attempt at one position for the alternation
`\.[\w-]+|\[[\w\-="':]+\]|:[\w-]+(?:\([^)]*\))?` (the `classes` regex).
Returns `some k` when a match of length `k + 1` starts here.  The three
alternatives begin with distinct literal characters, so trying them keyed on
the first character is exactly the engine's left-to-right alternative order.
Greedy runs cannot be shortened by backtracking here: the attribute body class
excludes `]` and the parenthesised body excludes `)`. -/
def classMatchLen (l : List Char) : Option ℕ :=
  match l with
  | [] => none
  | c :: rest =>
    if c = '.' then
      let run := rest.takeWhile isWordDashChar
      if run.isEmpty then none else some run.length
    else if c = '[' then
      let run := rest.takeWhile isAttrBodyChar
      if run.isEmpty then none
      else
        match rest.drop run.length with
        | ']' :: _ => some (run.length + 1)
        | _ => none
    else if c = ':' then
      let run := rest.takeWhile isWordDashChar
      if run.isEmpty then none
      else
        match rest.drop run.length with
        | '(' :: afterParen =>
          let inner := afterParen.takeWhile (fun ch => ch ≠ ')')
          match afterParen.drop inner.length with
          | ')' :: _ => some (run.length + 1 + inner.length + 1)
          | _ => some run.length
        | _ => some run.length
    else none

/-- Global-match counter for the `classes` regex of `calculateSpecificity`. -/
def countClassMatches : ℕ → List Char → ℕ
  | 0, _ => 0
  | _, [] => 0
  | fuel + 1, c :: rest =>
    match classMatchLen (c :: rest) with
    | some k => 1 + countClassMatches fuel (rest.drop k)
    | none => countClassMatches fuel rest

/-- Drop trailing dashes.  For `\b[a-zA-Z][\w-]*\b` the trailing word boundary
forces backtracking of the greedy `[\w-]*` run to the last word character,
which amounts to stripping the dashes at the end of the run. -/
def dropTrailingDashes (l : List Char) : List Char :=
  (l.reverse.dropWhile (fun c => c = '-')).reverse

/-- Match attempt at one position for `\b[a-zA-Z][\w-]*\b|::[\w-]+` (the
`elements` regex).  `prevIsWord` says whether the previous character is a
`\w` character (false at the string start).  Returns `some (k, pe)` for a
match of length `k + 1`, where `pe` records a `::pseudo-element` match. -/
def elementMatchLen (prevIsWord : Bool) (l : List Char) : Option (ℕ × Bool) :=
  match l with
  | [] => none
  | c :: rest =>
    if c.isAlpha && !prevIsWord then
      let run := rest.takeWhile isWordDashChar
      some ((dropTrailingDashes run).length, false)
    else if c = ':' then
      match rest with
      | ':' :: rest2 =>
        let run := rest2.takeWhile isWordDashChar
        if run.isEmpty then none else some (run.length + 1, true)
      | _ => none
    else none

/-- Last character of the match `c :: taken` (for word-boundary tracking). -/
def lastCharOf (c : Char) (taken : List Char) : Char :=
  match taken.getLast? with
  | some d => d
  | none => c

/-- Global matcher for the `elements` regex, returning one flag per match
(true for a `::pseudo-element` match). -/
def elementMatchFlags : ℕ → Bool → List Char → List Bool
  | 0, _, _ => []
  | _, _, [] => []
  | fuel + 1, prevIsWord, c :: rest =>
    match elementMatchLen prevIsWord (c :: rest) with
    | some (k, pe) =>
      pe :: elementMatchFlags fuel (isJsWordChar (lastCharOf c (rest.take k))) (rest.drop k)
    | none => elementMatchFlags fuel (isJsWordChar c) rest

/-- Embedding of `calculateSpecificity` (src/inspector.ts lines 1178-1201).
`inline` is always 0.  The source's filter callback increments `elements` on
`::pseudo-element` matches, but that increment is clobbered by the final
assignment of the filter's length, so the effective element count is the
number of matches not starting with `::`. -/
def calculateSpecificity (selector : String) : String :=
  if selector = "" then "0,0,0,0"
  else
    let chars := selector.data
    let fuel := chars.length + 1
    let ids := countIdMatches fuel chars
    let classes := countClassMatches fuel chars
    let elementMatches := elementMatchFlags fuel false chars
    let elements := (elementMatches.filter (fun pe => pe = false)).length
    "0," ++ toString ids ++ "," ++ toString classes ++ "," ++ toString elements

/-- Split a character list at commas, mirroring JavaScript `value.split(',')`. -/
def splitOnCommaChars : List Char → List (List Char)
  | [] => [[]]
  | c :: rest =>
    match splitOnCommaChars rest with
    | [] => if c = ',' then [[], []] else [[c]]
    | h :: t => if c = ',' then [] :: h :: t else (c :: h) :: t

/-- Whitespace trim at both ends, mirroring JavaScript `f.trim()` for the
ASCII whitespace that occurs in CSS values. -/
def trimChars (l : List Char) : List Char :=
  ((l.dropWhile Char.isWhitespace).reverse.dropWhile Char.isWhitespace).reverse

/-- Embedding of `truncateValue` (src/inspector.ts lines 1265-1281).  Values
of at most 100 characters are returned unchanged; only then does the
`font-family` special case apply, and a `font-family` value with at most 3
comma-separated entries falls through to the generic 97-character cut. -/
def truncateValue (property value : String) : String :=
  let chars := value.data
  if chars.length ≤ 100 then value
  else
    if property = "font-family" then
      let fonts := (splitOnCommaChars chars).map trimChars
      if fonts.length > 3 then
        String.mk (List.intercalate [',', ' '] (fonts.take 3)) ++ ", ..."
      else String.mk (chars.take 97) ++ "..."
    else String.mk (chars.take 97) ++ "..."

/-- Long `font-family` value (126 characters, 4 comma-separated entries). -/
def ffLongValue : String :=
  String.mk (List.replicate 30 'A') ++ ", " ++ String.mk (List.replicate 30 'B') ++ ", " ++
    String.mk (List.replicate 30 'C') ++ ", " ++ String.mk (List.replicate 30 'D')

/-- First three entries of `ffLongValue` plus the continuation marker. -/
def ffLongExpected : String :=
  String.mk (List.replicate 30 'A') ++ ", " ++ String.mk (List.replicate 30 'B') ++ ", " ++
    String.mk (List.replicate 30 'C') ++ ", ..."

/-- Long `font-family` value with a single entry (120 characters, no comma). -/
def ffNoCommaLong : String := String.mk (List.replicate 120 'F')

/-- A 150-character value. -/
def xLongValue : String := String.mk (List.replicate 150 'x')

/-- The first 97 characters of `xLongValue` plus an ellipsis. -/
def xLongTruncated : String := String.mk (List.replicate 97 'x') ++ "..."

/-- Viewport snapshot (src/inspector.ts `ViewportInfo`, lines 35-42). -/
structure ViewportInfo where
  width : ℝ
  height : ℝ
  deviceScaleFactor : ℝ
  mobile : Bool
  scrollX : ℝ
  scrollY : ℝ

/-- Element position summary (src/inspector.ts `ElementPosition`, lines 44-49). -/
structure ElementPosition where
  centerX : ℝ
  centerY : ℝ
  width : ℝ
  height : ℝ

/-- Viewport manipulation constant (src/inspector.ts line 30). -/
def MIN_ZOOM_FACTOR : ℝ := 0.5

/-- Viewport manipulation constant (src/inspector.ts line 31). -/
def MAX_ZOOM_FACTOR : ℝ := 3.0

/-- Target 40% viewport coverage (src/inspector.ts line 32). -/
def TARGET_ELEMENT_COVERAGE : ℝ := 0.4

/-- JavaScript's `Math.round`: round half toward positive infinity. -/
noncomputable def jsRound (x : ℝ) : ℝ := (⌊x + 1/2⌋ : ℤ)

/-- Embedding of `calculateOptimalZoom` (src/inspector.ts lines 127-143). -/
noncomputable def calculateOptimalZoom (elementPosition : ElementPosition)
    (viewport : ViewportInfo) : ℝ :=
  let elementArea := elementPosition.width * elementPosition.height
  let viewportArea := viewport.width * viewport.height
  let coverage := elementArea / viewportArea
  let zoomFactor :=
    if coverage < 0.1 then
      min MAX_ZOOM_FACTOR (Real.sqrt (TARGET_ELEMENT_COVERAGE / coverage))
    else if coverage > 0.8 then
      max MIN_ZOOM_FACTOR (Real.sqrt (0.6 / coverage))
    else 1
  jsRound (zoomFactor * 100) / 100

/-- Pixel tolerance for alignment detection (src/inspector.ts line 27). -/
def ALIGNMENT_TOLERANCE : ℝ := 1

/-- Distance block of an `ElementRelationship` (src/types.ts). -/
structure RelDistance where
  horizontal : ℝ
  vertical : ℝ
  center_to_center : ℝ

/-- Alignment block of an `ElementRelationship`.  The source computes
booleans from real comparisons; over `ℝ` they are embedded as propositions. -/
structure RelAlignment where
  top : Prop
  bottom : Prop
  left : Prop
  right : Prop
  vertical_center : Prop
  horizontal_center : Prop

/-- Pairwise relationship record (src/types.ts `ElementRelationship`); the
source's `from`/`to` fields are named `fromSel`/`toSel` here. -/
structure ElementRelationship where
  fromSel : String
  toSel : String
  distance : RelDistance
  alignment : RelAlignment

/-- Per-element data threaded through the multi-element path
(src/inspector.ts `nodeData` entries). -/
structure NodeData where
  selector : String
  nodeId : ℕ
  boxModel : BoxModel ℝ

/-- Embedding of `calculatePairwiseRelationship` (src/inspector.ts lines
1008-1079): border boxes, rounded edge gaps and center distance, and
alignment flags within the fixed 1px tolerance. -/
noncomputable def calculatePairwiseRelationship (element1 element2 : NodeData) :
    ElementRelationship :=
  let box1 := element1.boxModel.border
  let box2 := element2.boxModel.border
  let center1x := box1.x + box1.width / 2
  let center1y := box1.y + box1.height / 2
  let center2x := box2.x + box2.width / 2
  let center2y := box2.y + box2.height / 2
  let centerToCenterDistance :=
    Real.sqrt ((center2x - center1x) ^ 2 + (center2y - center1y) ^ 2)
  let horizontalDistance :=
    if box1.x + box1.width < box2.x then box2.x - (box1.x + box1.width)
    else if box2.x + box2.width < box1.x then box1.x - (box2.x + box2.width)
    else 0
  let verticalDistance :=
    if box1.y + box1.height < box2.y then box2.y - (box1.y + box1.height)
    else if box2.y + box2.height < box1.y then box1.y - (box2.y + box2.height)
    else 0
  { fromSel := element1.selector
    toSel := element2.selector
    distance :=
      { horizontal := jsRound horizontalDistance
        vertical := jsRound verticalDistance
        center_to_center := jsRound centerToCenterDistance }
    alignment :=
      { top := |box1.y - box2.y| ≤ ALIGNMENT_TOLERANCE
        bottom := |box1.y + box1.height - (box2.y + box2.height)| ≤ ALIGNMENT_TOLERANCE
        left := |box1.x - box2.x| ≤ ALIGNMENT_TOLERANCE
        right := |box1.x + box1.width - (box2.x + box2.width)| ≤ ALIGNMENT_TOLERANCE
        vertical_center := |center1y - center2y| ≤ ALIGNMENT_TOLERANCE
        horizontal_center := |center1x - center2x| ≤ ALIGNMENT_TOLERANCE } }

/-- RGBA color entry of the `HIGHLIGHT_COLORS` palette. -/
structure RGBA where
  r : ℕ
  g : ℕ
  b : ℕ
  a : ℚ
  deriving DecidableEq, Repr

/-- The fixed 5-entry palette (src/inspector.ts lines 18-24).  The source
comment marks it as reserved; no drawing code reads it. -/
def HIGHLIGHT_COLORS : List RGBA :=
  [⟨0, 0, 255, 0.8⟩, ⟨0, 255, 0, 0.8⟩, ⟨255, 255, 0, 0.8⟩,
   ⟨255, 128, 0, 0.8⟩, ⟨255, 0, 255, 0.8⟩]

/-- One primitive drawing operation performed on the screenshot pixels. -/
inductive DrawOp where
  | outline (rect : Rect ℚ) (color : ℕ) (thickness : ℕ)
  | fill (rect : Rect ℚ) (color : ℕ)
  | rulers (rect : Rect ℚ)
  deriving DecidableEq, Repr

/-- Does a drawing operation target the given rectangle? -/
def DrawOp.usesRect (op : DrawOp) (r : Rect ℚ) : Bool :=
  match op with
  | .outline r' _ _ => r' = r
  | .fill r' _ => r' = r
  | .rulers r' => r' = r

/-- The drawing pass of `drawHighlightOnScreenshot` (src/inspector.ts lines
287-302) applied to an already coordinate-transformed box model: fixed
yellow/red/green outlines for margin/border/padding, translucent blue fill
plus blue outline for content, and center rulers on the border box. -/
def highlightDrawOps (adjusted : BoxModel ℚ) : List DrawOp :=
  [ .outline adjusted.margin 0xFFFF00FF 1,
    .outline adjusted.border 0xFF0000FF 2,
    .outline adjusted.padding 0x00FF00FF 1,
    .fill adjusted.content 0x0078FF44,
    .outline adjusted.content 0x0078FFFF 2,
    .rulers adjusted.border ]

/-- Screenshot buffer: either raw PNG bytes (abstracted to dimensions plus an
identifier) or a previous buffer with drawing operations burned in.  Drawing
never changes the image dimensions. -/
inductive Screenshot where
  | raw (width height : ℚ) (id : ℕ)
  | drawn (orig : Screenshot) (ops : List DrawOp)
  deriving DecidableEq, Repr

/-- Bitmap width of a screenshot (`image.bitmap.width`). -/
def Screenshot.width : Screenshot → ℚ
  | .raw w _ _ => w
  | .drawn o _ => o.width

/-- Bitmap height of a screenshot (`image.bitmap.height`). -/
def Screenshot.height : Screenshot → ℚ
  | .raw _ h _ => h
  | .drawn o _ => o.height

/-- Drawing operations burned into a screenshot by the last annotation pass. -/
def Screenshot.annotationOps : Screenshot → List DrawOp
  | .raw _ _ _ => []
  | .drawn _ ops => ops

/-- Failure oracle for the annotation routine: whether decoding the PNG,
any drawing step, or re-encoding throws. -/
structure AnnotateOracle where
  readFail : Bool
  drawFail : Bool
  encodeFail : Bool
  deriving DecidableEq, Repr

/-- Embedding of `drawHighlightOnScreenshot` (src/inspector.ts lines 218-312).
The whole body sits in a try/catch returning the original buffer on any
error; otherwise the transformed box model is drawn onto the image.  The
source's `zoomFactor` and `elementMetrics` parameters are unused by its body
and are omitted. -/
def drawHighlightOnScreenshot (oracle : AnnotateOracle) (screenshotBuffer : Screenshot)
    (boxModel : BoxModel ℚ) (viewportW viewportH : ℚ) (clipRegion : Option (Rect ℚ)) :
    Screenshot :=
  if oracle.readFail || oracle.drawFail || oracle.encodeFail then screenshotBuffer
  else
    Screenshot.drawn screenshotBuffer
      (highlightDrawOps
        (transformBoxModelForScreenshot boxModel viewportW viewportH clipRegion
          screenshotBuffer.width screenshotBuffer.height))

/-- The composite-screenshot annotation step of `inspectMultipleElements`
(src/inspector.ts lines 924-934): a single `drawHighlightOnScreenshot` call
on the first element's box model when any element exists. -/
def inspectMultipleAnnotate (oracle : AnnotateOracle) (screenshotBuffer : Screenshot)
    (tBoxModels : List (BoxModel ℚ)) (viewportW viewportH : ℚ)
    (clipRegion : Option (Rect ℚ)) : Screenshot :=
  match tBoxModels with
  | [] => screenshotBuffer
  | b :: _ => drawHighlightOnScreenshot oracle screenshotBuffer b viewportW viewportH clipRegion

/-- Box model whose four layers all sit at (10,10) with size 20. -/
def cxBoxA : BoxModel ℚ :=
  { content := ⟨10, 10, 20, 20⟩, padding := ⟨10, 10, 20, 20⟩,
    border := ⟨10, 10, 20, 20⟩, margin := ⟨10, 10, 20, 20⟩ }

/-- Box model whose four layers all sit at (50,50) with size 20. -/
def cxBoxB : BoxModel ℚ :=
  { content := ⟨50, 50, 20, 20⟩, padding := ⟨50, 50, 20, 20⟩,
    border := ⟨50, 50, 20, 20⟩, margin := ⟨50, 50, 20, 20⟩ }

/-- A raw 100x100 screenshot. -/
def cxShot : Screenshot := .raw 100 100 0

/-- Error taxonomy of the inspection orchestrator (spec §7 names for the
`throw new Error(...)` sites of src/inspector.ts). -/
inductive InspectError where
  | protocolFailure
  | documentUnavailable
  | invalidSelector
  | elementNotFound
  | elementNotVisible
  | captureFailed
  deriving DecidableEq, Repr

/-- Modelled from the spec: observable browser-tab state touched by the
orchestrator.  The `data-inspect-id` marker scripts live in
`browser-scripts.ts`, which is not under src/; per spec §4.6 marking sets
temporary attributes on matched nodes and the cleanup script removes all of
them, and per spec §4.3 the page zoom is set and must be reset to 1.
`markers` records whether any marker attribute is present. -/
structure PageState where
  markers : Bool
  pageZoom : ℚ
  deriving DecidableEq, Repr

/-- Failure oracle for the protocol round trips of the orchestrator body
(each flag corresponds to one await site of src/inspector.ts throwing or
returning an error value; `matchedCount` is the number of node handles
resolved; `zoomTarget` is the zoom factor the body decides to apply). -/
structure BodyOracle where
  enableFail : Bool
  docFail1 : Bool
  docFail2 : Bool
  docFail3 : Bool
  markEvalThrows : Bool
  markScriptError : Bool
  matchedCount : ℕ
  findIdFail : Bool
  metricsFail : Bool
  zoomTarget : ℚ
  setZoomFail : Bool
  stylesFail : Bool
  screenshotNoData : Bool
  multiBoxModelFail : Bool
  deriving DecidableEq, Repr

/-- Failure oracle for the cleanup calls (the `catch (cleanupError)` blocks
of src/inspector.ts lines 544-554, 720-737 and 963-978). -/
structure CleanupOracle where
  resetZoomFail : Bool
  innerCleanupFail : Bool
  outerCleanupFail : Bool
  deriving DecidableEq, Repr

/-- Try-block body of `inspectSingleElement` (src/inspector.ts lines
607-719) as a state transformer: element resolution and measurement may
throw before any zoom is applied; the page zoom changes only when
`Emulation.setPageScaleFactor` succeeds; the third component is the
`appliedZoomFactor` variable the finally block will inspect. -/
def singleBody (ob : BodyOracle) (s : PageState) :
    Except InspectError Unit × PageState × ℚ :=
  if ob.findIdFail then (.error .elementNotVisible, s, 1)
  else if ob.metricsFail then (.error .elementNotVisible, s, 1)
  else if ob.zoomTarget ≠ 1 then
    if ob.setZoomFail then (.error .protocolFailure, s, ob.zoomTarget)
    else
      let s1 : PageState := { s with pageZoom := ob.zoomTarget }
      if ob.stylesFail then (.error .protocolFailure, s1, ob.zoomTarget)
      else if ob.screenshotNoData then (.error .captureFailed, s1, ob.zoomTarget)
      else (.ok (), s1, ob.zoomTarget)
  else
    if ob.stylesFail then (.error .protocolFailure, s, 1)
    else if ob.screenshotNoData then (.error .captureFailed, s, 1)
    else (.ok (), s, 1)

/-- Finally block of `inspectSingleElement` (src/inspector.ts lines 720-737):
reset the zoom when one was applied; a throwing reset is caught and leaves
the zoom as is.  The temp-id removal that follows is conditioned on a
`_inspect_temp_` id, which the single path never creates because the element
already carries the marker set by `markElementsWithIds`. -/
def runFinallySingle (oc : CleanupOracle) (s : PageState) (applied : ℚ) : PageState :=
  if applied ≠ 1 then
    if oc.resetZoomFail then s
    else { s with pageZoom := 1 }
  else s

/-- `inspectSingleElement` with its try/finally assembled. -/
def inspectSingleElementM (ob : BodyOracle) (oc : CleanupOracle) (s : PageState) :
    Except InspectError Unit × PageState :=
  ((singleBody ob s).1, runFinallySingle oc (singleBody ob s).2.1 (singleBody ob s).2.2)

/-- Try-block body of `inspectMultipleElements` (src/inspector.ts lines
764-961), with the same zoom discipline as the single path; the first-pass
`DOM.getBoxModel` failure throws before any zoom is applied. -/
def multiBody (ob : BodyOracle) (s : PageState) :
    Except InspectError Unit × PageState × ℚ :=
  if ob.multiBoxModelFail then (.error .elementNotVisible, s, 1)
  else if ob.zoomTarget ≠ 1 then
    if ob.setZoomFail then (.error .protocolFailure, s, ob.zoomTarget)
    else
      let s1 : PageState := { s with pageZoom := ob.zoomTarget }
      if ob.stylesFail then (.error .protocolFailure, s1, ob.zoomTarget)
      else if ob.screenshotNoData then (.error .captureFailed, s1, ob.zoomTarget)
      else (.ok (), s1, ob.zoomTarget)
  else
    if ob.stylesFail then (.error .protocolFailure, s, 1)
    else if ob.screenshotNoData then (.error .captureFailed, s, 1)
    else (.ok (), s, 1)

/-- Finally block of `inspectMultipleElements` (src/inspector.ts lines
963-978): one try block runs the zoom reset (when applied) and then the
marker cleanup script, so a throwing reset also skips that cleanup; all
cleanup errors are caught. -/
def runFinallyMulti (oc : CleanupOracle) (s : PageState) (applied : ℚ) : PageState :=
  if applied ≠ 1 then
    if oc.resetZoomFail then s
    else
      let s1 : PageState := { s with pageZoom := 1 }
      if oc.innerCleanupFail then s1 else { s1 with markers := false }
  else
    if oc.innerCleanupFail then s else { s with markers := false }

/-- `inspectMultipleElements` with its try/finally assembled. -/
def inspectMultipleElementsM (ob : BodyOracle) (oc : CleanupOracle) (s : PageState) :
    Except InspectError Unit × PageState :=
  ((multiBody ob s).1, runFinallyMulti oc (multiBody ob s).2.1 (multiBody ob s).2.2)

/-- Try-block body of `inspectElement` (src/inspector.ts lines 453-543):
domain enabling, the 3-attempt document retrieval, element marking (markers
appear once the marking script found and tagged elements), node-handle
resolution, and the single/multi dispatch. -/
def dispatchInspect (ob : BodyOracle) (oc : CleanupOracle) :
    Except InspectError Unit × PageState :=
  let s0 : PageState := { markers := false, pageZoom := 1 }
  if ob.enableFail then (.error .protocolFailure, s0)
  else if ob.docFail1 && ob.docFail2 && ob.docFail3 then (.error .documentUnavailable, s0)
  else if ob.markEvalThrows then (.error .invalidSelector, s0)
  else if ob.markScriptError then (.error .elementNotFound, s0)
  else
    let sMarked : PageState := { s0 with markers := true }
    if ob.matchedCount = 0 then (.error .elementNotFound, sMarked)
    else if ob.matchedCount = 1 then inspectSingleElementM ob oc sMarked
    else inspectMultipleElementsM ob oc sMarked

/-- `inspectElement` (src/inspector.ts lines 437-555): the dispatch body
wrapped in the outer finally, whose marker-cleanup script removes every
`data-inspect-id` attribute unless that call itself fails, in which case the
failure is caught and the primary outcome is returned unchanged. -/
def inspectElementM (ob : BodyOracle) (oc : CleanupOracle) :
    Except InspectError Unit × PageState :=
  ((dispatchInspect ob oc).1,
    if oc.outerCleanupFail then (dispatchInspect ob oc).2
    else { (dispatchInspect ob oc).2 with markers := false })

/-- Body oracle of a fully successful single-element inspection that applies
a 2x zoom. -/
def sampleBodyOracle : BodyOracle :=
  { enableFail := false, docFail1 := false, docFail2 := false, docFail3 := false
    markEvalThrows := false, markScriptError := false, matchedCount := 1
    findIdFail := false, metricsFail := false, zoomTarget := 2
    setZoomFail := false, stylesFail := false, screenshotNoData := false
    multiBoxModelFail := false }

/-- Cleanup oracle with no cleanup failures. -/
def cleanCleanupOracle : CleanupOracle :=
  { resetZoomFail := false, innerCleanupFail := false, outerCleanupFail := false }

/-- Sample element position: a 10x10 element at the origin. -/
def samplePosition : ElementPosition := ⟨5, 5, 10, 10⟩

/-- Sample viewport: 20x10, so the sample element covers half of it. -/
def sampleViewport : ViewportInfo := ⟨20, 10, 1, false, 0, 0⟩

/-- Node with border box at (0,0) sized 10x10. -/
def sampleNodeA : NodeData :=
  { selector := "a", nodeId := 1
    boxModel :=
      { content := ⟨0, 0, 10, 10⟩, padding := ⟨0, 0, 10, 10⟩,
        border := ⟨0, 0, 10, 10⟩, margin := ⟨0, 0, 10, 10⟩ } }

/-- Node with border box at (20,0) sized 5x5. -/
def sampleNodeB : NodeData :=
  { selector := "b", nodeId := 2
    boxModel :=
      { content := ⟨20, 0, 5, 5⟩, padding := ⟨20, 0, 5, 5⟩,
        border := ⟨20, 0, 5, 5⟩, margin := ⟨20, 0, 5, 5⟩ } }

/-- Cleanup oracle where only the inner marker-cleanup script fails. -/
def sampleCleanupOracle : CleanupOracle :=
  { resetZoomFail := false, innerCleanupFail := true, outerCleanupFail := false }

/-- Lower bound used for `quadToRect`: the minimum of four values never
exceeds their maximum. -/
theorem min4_le_max4 (a b c d : ℚ) :
    min (min a b) (min c d) ≤ max (max a b) (max c d) :=
  le_trans (min_le_left _ _)
    (le_trans (min_le_left a b) (le_trans (le_max_left a b) (le_max_left _ _)))

/-- C1 counterexample: on `inconsistentMetrics` (a 10px-wide border box with
20px of left padding) the derived content width is -10; the code propagates
the negative dimension instead of clamping it to zero, contradicting the
claim that every result satisfies `content.width ≥ 0`. -/
theorem convertElementMetrics_negative_content_cx :
    (convertElementMetricsToBoxModel inconsistentMetrics).content.width = -10 ∧
    (convertElementMetricsToBoxModel inconsistentMetrics).content.width < 0 := by
  have h : (convertElementMetricsToBoxModel inconsistentMetrics).content.width = -10 := by
    norm_num [convertElementMetricsToBoxModel, inconsistentMetrics]
  refine ⟨h, ?_⟩
  rw [h]
  norm_num

/-- C1 (amended): the box-model derivation returns `border` equal to the
metrics' bounding rect verbatim, `margin` expanded outward by the margin
widths, `padding` shrunk inward by the border widths and `content` shrunk
further by the padding widths; negative resultant dimensions are propagated
as is, with no clamping. -/
theorem convertElementMetricsToBoxModel_spec (m : ElementMetrics ℚ) :
    (convertElementMetricsToBoxModel m).border = m.viewport ∧
    (convertElementMetricsToBoxModel m).margin =
      ⟨m.viewport.x - m.margin.left, m.viewport.y - m.margin.top,
       m.viewport.width + m.margin.left + m.margin.right,
       m.viewport.height + m.margin.top + m.margin.bottom⟩ ∧
    (convertElementMetricsToBoxModel m).padding =
      ⟨m.viewport.x + m.border.left, m.viewport.y + m.border.top,
       m.viewport.width - m.border.left - m.border.right,
       m.viewport.height - m.border.top - m.border.bottom⟩ ∧
    (convertElementMetricsToBoxModel m).content =
      ⟨m.viewport.x + m.border.left + m.padding.left,
       m.viewport.y + m.border.top + m.padding.top,
       m.viewport.width - m.border.left - m.border.right - m.padding.left - m.padding.right,
       m.viewport.height - m.border.top - m.border.bottom - m.padding.top - m.padding.bottom⟩ :=
  ⟨rfl, rfl, rfl, rfl⟩

/-- C10: `quadToRect` takes the coordinate minima as x/y and max-minus-min as
width/height, so its width and height are nonnegative for every corner
order, and every layer of a box model built by `convertBoxModel` from
browser quads has nonnegative width and height. -/
theorem quadToRect_convertBoxModel_nonneg :
    (∀ q : Quad ℚ,
      (quadToRect q).x = min (min q.p0 q.p2) (min q.p4 q.p6) ∧
      (quadToRect q).y = min (min q.p1 q.p3) (min q.p5 q.p7) ∧
      (quadToRect q).width =
        max (max q.p0 q.p2) (max q.p4 q.p6) - min (min q.p0 q.p2) (min q.p4 q.p6) ∧
      (quadToRect q).height =
        max (max q.p1 q.p3) (max q.p5 q.p7) - min (min q.p1 q.p3) (min q.p5 q.p7) ∧
      0 ≤ (quadToRect q).width ∧ 0 ≤ (quadToRect q).height) ∧
    (∀ m : CdpBoxModel ℚ,
      (0 ≤ (convertBoxModel m).content.width ∧ 0 ≤ (convertBoxModel m).content.height) ∧
      (0 ≤ (convertBoxModel m).padding.width ∧ 0 ≤ (convertBoxModel m).padding.height) ∧
      (0 ≤ (convertBoxModel m).border.width ∧ 0 ≤ (convertBoxModel m).border.height) ∧
      (0 ≤ (convertBoxModel m).margin.width ∧ 0 ≤ (convertBoxModel m).margin.height)) := by
  have hq : ∀ q : Quad ℚ, 0 ≤ (quadToRect q).width ∧ 0 ≤ (quadToRect q).height := by
    intro q
    exact ⟨sub_nonneg.mpr (min4_le_max4 _ _ _ _), sub_nonneg.mpr (min4_le_max4 _ _ _ _)⟩
  refine ⟨fun q => ⟨rfl, rfl, rfl, rfl, (hq q).1, (hq q).2⟩, fun m => ?_⟩
  exact ⟨hq m.content, hq m.padding, hq m.border, hq m.margin⟩

/-- C4: evaluating the embedded `calculateSpecificity` at the claim's inputs.
The empty selector yields `"0,0,0,0"` as claimed, but `"#a.b.c div"` yields
`"0,1,2,4"`, not `"0,1,2,1"`: the element regex `\b[a-zA-Z][\w-]*\b` also
matches the id/class name fragments `a`, `b` and `c`. -/
theorem calculateSpecificity_eval :
    calculateSpecificity "#a.b.c div" = "0,1,2,4" ∧
    calculateSpecificity "" = "0,0,0,0" := by
  constructor <;> decide

/-- C5 counterexample: `truncateValue "font-family" "A, B, C, D, E"` returns
the value unchanged (it is 13 characters, below the 100-character gate that
guards the whole function), not `"A, B, C, ..."` as the claim's
"regardless of the value's total length" requires. -/
theorem truncateValue_short_fontFamily_cx :
    truncateValue "font-family" "A, B, C, D, E" = "A, B, C, D, E" ∧
    truncateValue "font-family" "A, B, C, D, E" ≠ "A, B, C, ..." := by
  constructor <;> decide

set_option maxRecDepth 8000 in
/-- C5 (amended): for every value of at most 100 characters the value passes
through unchanged, including `font-family` values; every `font-family` value
longer than 100 characters with more than 3 comma-separated entries is
reduced to its first 3 trimmed entries plus a ", ..." marker; every
`font-family` value longer than 100 characters with at most 3 entries, and
every non-`font-family` value longer than 100 characters, is cut to its
first 97 characters plus "..."; two concrete long inputs ground the
abstract right-hand sides against explicit strings. -/
theorem truncateValue_spec :
    (∀ property value : String, value.length ≤ 100 →
      truncateValue property value = value) ∧
    (∀ value : String, 100 < value.length →
      3 < (splitOnCommaChars value.data).length →
      truncateValue "font-family" value =
        String.mk (List.intercalate [',', ' ']
          (((splitOnCommaChars value.data).map trimChars).take 3)) ++ ", ...") ∧
    (∀ value : String, 100 < value.length →
      (splitOnCommaChars value.data).length ≤ 3 →
      truncateValue "font-family" value = String.mk (value.data.take 97) ++ "...") ∧
    (∀ property value : String, property ≠ "font-family" → 100 < value.length →
      truncateValue property value = String.mk (value.data.take 97) ++ "...") ∧
    truncateValue "font-family" ffLongValue = ffLongExpected ∧
    truncateValue "color" xLongValue = xLongTruncated := by
  refine ⟨?_, ?_, ?_, ?_, by decide, by decide⟩
  · intro property value h
    simp [truncateValue, h]
  · intro value h1 h2
    have hn : ¬ value.length ≤ 100 := not_le.mpr h1
    simp [truncateValue, hn, h2]
  · intro value h1 h2
    have hn : ¬ value.length ≤ 100 := not_le.mpr h1
    have hn2 : ¬ 3 < (splitOnCommaChars value.data).length := not_lt.mpr h2
    simp [truncateValue, hn, hn2]
  · intro property value hp h1
    have hn : ¬ value.length ≤ 100 := not_le.mpr h1
    simp [truncateValue, hn, hp]

set_option maxRecDepth 8000 in
/-- C5 witness: one concrete input per clause of the amended statement — a
short pass-through, a 126-character 4-entry font-family reduced to 3 entries,
a 120-character comma-free font-family cut at 97 characters, and a
150-character non-font-family value cut at 97 characters. -/
theorem truncateValue_spec_witness :
    truncateValue "color" "red" = "red" ∧
    truncateValue "font-family" ffLongValue =
      String.mk (List.intercalate [',', ' ']
        (((splitOnCommaChars ffLongValue.data).map trimChars).take 3)) ++ ", ..." ∧
    truncateValue "font-family" ffNoCommaLong =
      String.mk (ffNoCommaLong.data.take 97) ++ "..." ∧
    truncateValue "color" xLongValue = String.mk (xLongValue.data.take 97) ++ "..." :=
  ⟨truncateValue_spec.1 "color" "red" (by decide),
   truncateValue_spec.2.1 ffLongValue (by decide) (by decide),
   truncateValue_spec.2.2.1 ffNoCommaLong (by decide) (by decide),
   truncateValue_spec.2.2.2.1 "color" xLongValue (by decide) (by decide)⟩

/-- C2: the screenshot coordinate transform of `drawHighlightOnScreenshot`
equals the spec's two-stage contract (device scaling by
`actualImage / expected` when either factor deviates from 1 by more than
0.01, followed by subtraction of the similarly-scaled clip origin), and in
the clipped case every resulting x/y is clamped to be nonnegative. -/
theorem transformBoxModelForScreenshot_spec (boxModel : BoxModel ℚ)
    (vpW vpH imgW imgH : ℚ) (c : Rect ℚ) :
    transformBoxModelForScreenshot boxModel vpW vpH none imgW imgH =
      transformForScreenshotSpec boxModel vpW vpH none imgW imgH ∧
    transformBoxModelForScreenshot boxModel vpW vpH (some c) imgW imgH =
      transformForScreenshotSpec boxModel vpW vpH (some c) imgW imgH ∧
    (0 ≤ (transformBoxModelForScreenshot boxModel vpW vpH (some c) imgW imgH).content.x ∧
     0 ≤ (transformBoxModelForScreenshot boxModel vpW vpH (some c) imgW imgH).content.y ∧
     0 ≤ (transformBoxModelForScreenshot boxModel vpW vpH (some c) imgW imgH).padding.x ∧
     0 ≤ (transformBoxModelForScreenshot boxModel vpW vpH (some c) imgW imgH).padding.y ∧
     0 ≤ (transformBoxModelForScreenshot boxModel vpW vpH (some c) imgW imgH).border.x ∧
     0 ≤ (transformBoxModelForScreenshot boxModel vpW vpH (some c) imgW imgH).border.y ∧
     0 ≤ (transformBoxModelForScreenshot boxModel vpW vpH (some c) imgW imgH).margin.x ∧
     0 ≤ (transformBoxModelForScreenshot boxModel vpW vpH (some c) imgW imgH).margin.y) := by
  refine ⟨?_, ?_, ?_, ?_, ?_, ?_, ?_, ?_, ?_, ?_⟩
  · by_cases h : (100:ℚ)⁻¹ < |imgW / vpW - 1| ∨ (100:ℚ)⁻¹ < |imgH / vpH - 1|
    · simp [transformBoxModelForScreenshot, transformForScreenshotSpec,
        specOnEachRect, specScaleRect, scaleRect, h]
    · simp [transformBoxModelForScreenshot, transformForScreenshotSpec, h]
  · by_cases h : (100:ℚ)⁻¹ < |imgW / c.width - 1| ∨ (100:ℚ)⁻¹ < |imgH / c.height - 1|
    · simp [transformBoxModelForScreenshot, transformForScreenshotSpec,
        specOnEachRect, specScaleRect, specClipShift, scaleRect, adjustRect, h]
    · simp [transformBoxModelForScreenshot, transformForScreenshotSpec,
        specOnEachRect, specScaleRect, specClipShift, scaleRect, adjustRect, h]
  all_goals
    simp only [transformBoxModelForScreenshot, adjustRect]
    exact le_max_left _ _

/-- C9: when any step of the annotation routine throws (decode, drawing or
re-encode), `drawHighlightOnScreenshot` returns the original screenshot
buffer unchanged instead of propagating the error. -/
theorem drawHighlightOnScreenshot_failure_returns_original (oracle : AnnotateOracle)
    (buf : Screenshot) (boxModel : BoxModel ℚ) (vpW vpH : ℚ) (clip : Option (Rect ℚ))
    (hfail : oracle.readFail = true ∨ oracle.drawFail = true ∨ oracle.encodeFail = true) :
    drawHighlightOnScreenshot oracle buf boxModel vpW vpH clip = buf := by
  rcases hfail with h | h | h <;> simp [drawHighlightOnScreenshot, h]

/-- C9 witness: a failing decode at a concrete input returns the original
buffer. -/
theorem drawHighlightOnScreenshot_failure_witness :
    drawHighlightOnScreenshot ⟨true, false, false⟩ cxShot cxBoxA 100 100 none = cxShot :=
  drawHighlightOnScreenshot_failure_returns_original ⟨true, false, false⟩ cxShot cxBoxA
    100 100 none (Or.inl rfl)

/-- C7 counterexample: with two elements on a 100x100 screenshot at unit
scale, the composite screenshot's drawing operations are exactly the fixed
highlight pass for the first element's box; no operation targets any
rectangle of the second element, contradicting the claim that every
inspected element receives an outline and fill in a palette color. -/
theorem inspectMultipleAnnotate_cx :
    (inspectMultipleAnnotate ⟨false, false, false⟩ cxShot [cxBoxA, cxBoxB]
        100 100 none).annotationOps = highlightDrawOps cxBoxA ∧
    ∀ op ∈ (inspectMultipleAnnotate ⟨false, false, false⟩ cxShot [cxBoxA, cxBoxB]
        100 100 none).annotationOps,
      DrawOp.usesRect op cxBoxB.border = false ∧
      DrawOp.usesRect op cxBoxB.content = false := by
  constructor
  · norm_num [inspectMultipleAnnotate, drawHighlightOnScreenshot,
      transformBoxModelForScreenshot, Screenshot.annotationOps, cxShot,
      Screenshot.width, Screenshot.height]
  · norm_num [inspectMultipleAnnotate, drawHighlightOnScreenshot,
      transformBoxModelForScreenshot, Screenshot.annotationOps, cxShot,
      Screenshot.width, Screenshot.height, highlightDrawOps, DrawOp.usesRect,
      cxBoxA, cxBoxB]

/-- C7 (amended): in a multi-element inspection only the first element's box
model is annotated on the composite screenshot — one highlight pass in the
fixed yellow/red/green/blue colors with rulers on its border box — while
the remaining elements receive no drawing of their own; the 5-entry
`HIGHLIGHT_COLORS` palette is declared but not consulted. -/
theorem inspectMultipleAnnotate_first_only (oracle : AnnotateOracle) (buf : Screenshot)
    (b : BoxModel ℚ) (rest : List (BoxModel ℚ)) (vpW vpH : ℚ) (clip : Option (Rect ℚ))
    (h1 : oracle.readFail = false) (h2 : oracle.drawFail = false)
    (h3 : oracle.encodeFail = false) :
    inspectMultipleAnnotate oracle buf (b :: rest) vpW vpH clip =
      Screenshot.drawn buf
        (highlightDrawOps
          (transformBoxModelForScreenshot b vpW vpH clip buf.width buf.height)) ∧
    inspectMultipleAnnotate oracle buf [] vpW vpH clip = buf := by
  constructor
  · simp [inspectMultipleAnnotate, drawHighlightOnScreenshot, h1, h2, h3]
  · rfl

/-- C7 witness: the amended statement applied at a concrete two-element
input with no annotation failures. -/
theorem inspectMultipleAnnotate_first_only_witness :
    inspectMultipleAnnotate ⟨false, false, false⟩ cxShot (cxBoxA :: [cxBoxB]) 100 100 none =
      Screenshot.drawn cxShot
        (highlightDrawOps
          (transformBoxModelForScreenshot cxBoxA 100 100 none cxShot.width cxShot.height)) ∧
    inspectMultipleAnnotate ⟨false, false, false⟩ cxShot [] 100 100 none = cxShot :=
  inspectMultipleAnnotate_first_only ⟨false, false, false⟩ cxShot cxBoxA [cxBoxB]
    100 100 none rfl rfl rfl

/-- Lower bound of the rounded zoom factor: `Math.round(x*100)/100` stays at
or above 0.5 when `x` does. -/
theorem jsRound_div100_ge (x : ℝ) (h : 0.5 ≤ x) : 0.5 ≤ jsRound (x * 100) / 100 := by
  have h50 : (50 : ℤ) ≤ ⌊x * 100 + 1/2⌋ := by
    apply Int.le_floor.mpr
    push_cast
    linarith
  have hcast : (50 : ℝ) ≤ ((⌊x * 100 + 1/2⌋ : ℤ) : ℝ) := by exact_mod_cast h50
  simp only [jsRound]
  linarith

/-- Upper bound of the rounded zoom factor: `Math.round(x*100)/100` stays at
or below 3 when `x` does. -/
theorem jsRound_div100_le (x : ℝ) (h : x ≤ 3) : jsRound (x * 100) / 100 ≤ 3 := by
  have h300 : ⌊x * 100 + 1/2⌋ ≤ (300 : ℤ) := by
    have hlt : ⌊x * 100 + 1/2⌋ < (301 : ℤ) := by
      apply Int.floor_lt.mpr
      push_cast
      linarith
    omega
  have hcast : ((⌊x * 100 + 1/2⌋ : ℤ) : ℝ) ≤ (300 : ℝ) := by exact_mod_cast h300
  simp only [jsRound]
  linarith

/-- Rounding the neutral zoom factor returns exactly 1. -/
theorem jsRound_hundred : jsRound ((1:ℝ) * 100) / 100 = 1 := by
  have hfloor : ⌊(1:ℝ) * 100 + 1/2⌋ = (100 : ℤ) := by
    apply Int.floor_eq_iff.mpr
    constructor <;> norm_num
  simp only [jsRound, hfloor]
  norm_num

/-- C3: with positive coverage `c = elementArea / viewportArea`, the optimal
zoom is the 2-decimal rounding of `min(3, sqrt(0.4/c))` when `c < 0.1`, of
`max(0.5, sqrt(0.6/c))` when `c > 0.8`, and is exactly 1 for `c` within
`[0.1, 0.8]`; the result always lies in `[0.5, 3]`. -/
theorem calculateOptimalZoom_spec (pos : ElementPosition) (vp : ViewportInfo) (c : ℝ)
    (hc : c = pos.width * pos.height / (vp.width * vp.height)) (hcpos : 0 < c) :
    calculateOptimalZoom pos vp =
      jsRound ((if c < 0.1 then min 3 (Real.sqrt (0.4 / c))
        else if c > 0.8 then max 0.5 (Real.sqrt (0.6 / c)) else 1) * 100) / 100 ∧
    (0.1 ≤ c → c ≤ 0.8 → calculateOptimalZoom pos vp = 1) ∧
    0.5 ≤ calculateOptimalZoom pos vp ∧ calculateOptimalZoom pos vp ≤ 3 := by
  subst hc
  set cv := pos.width * pos.height / (vp.width * vp.height) with hcv
  have hmain : calculateOptimalZoom pos vp =
      jsRound ((if cv < 0.1 then min 3 (Real.sqrt (0.4 / cv))
        else if cv > 0.8 then max 0.5 (Real.sqrt (0.6 / cv)) else 1) * 100) / 100 := by
    simp only [calculateOptimalZoom, MAX_ZOOM_FACTOR, MIN_ZOOM_FACTOR, TARGET_ELEMENT_COVERAGE]
    norm_num
  have hf : 0.5 ≤ (if cv < 0.1 then min 3 (Real.sqrt (0.4 / cv))
      else if cv > 0.8 then max 0.5 (Real.sqrt (0.6 / cv)) else 1) ∧
      (if cv < 0.1 then min 3 (Real.sqrt (0.4 / cv))
      else if cv > 0.8 then max 0.5 (Real.sqrt (0.6 / cv)) else 1) ≤ 3 := by
    by_cases h1 : cv < 0.1
    · rw [if_pos h1]
      constructor
      · apply le_min (by norm_num)
        have hq : (0.25 : ℝ) ≤ 0.4 / cv := by
          rw [le_div_iff₀ hcpos]
          nlinarith
        calc (0.5 : ℝ) = Real.sqrt (0.25) := by
              rw [show (0.25 : ℝ) = 0.5 ^ 2 by norm_num, Real.sqrt_sq (by norm_num)]
          _ ≤ Real.sqrt (0.4 / cv) := Real.sqrt_le_sqrt hq
      · exact min_le_left _ _
    · rw [if_neg h1]
      by_cases h2 : cv > 0.8
      · rw [if_pos h2]
        constructor
        · exact le_max_left _ _
        · apply max_le (by norm_num)
          have hq : (0.6 : ℝ) / cv ≤ 1 := by
            rw [div_le_one (by linarith : (0:ℝ) < cv)]
            linarith
          have hs := Real.sqrt_le_sqrt hq
          rw [Real.sqrt_one] at hs
          linarith
      · rw [if_neg h2]
        norm_num
  refine ⟨hmain, ?_, ?_, ?_⟩
  · intro ha hb
    rw [hmain, if_neg (not_lt.mpr ha), if_neg (not_lt.mpr hb)]
    exact jsRound_hundred
  · rw [hmain]
    exact jsRound_div100_ge _ hf.1
  · rw [hmain]
    exact jsRound_div100_le _ hf.2

/-- C3 witness: a 10x10 element in a 20x10 viewport has coverage 1/2, inside
the neutral band, and the computed zoom is exactly 1. -/
theorem calculateOptimalZoom_spec_witness :
    calculateOptimalZoom samplePosition sampleViewport = 1 := by
  have h := calculateOptimalZoom_spec samplePosition sampleViewport (1/2)
    (by norm_num [samplePosition, sampleViewport]) (by norm_num)
  exact h.2.1 (by norm_num) (by norm_num)

/-- C6: swapping the two inputs of the pairwise relationship calculation
swaps the from/to labels and preserves the horizontal gap, the vertical gap,
the center-to-center distance and all six alignment flags, given the
nonnegative border-box dimensions every box model in this pipeline has. -/
theorem calculatePairwiseRelationship_symm (e1 e2 : NodeData)
    (hw1 : 0 ≤ e1.boxModel.border.width) (hh1 : 0 ≤ e1.boxModel.border.height)
    (hw2 : 0 ≤ e2.boxModel.border.width) (hh2 : 0 ≤ e2.boxModel.border.height) :
    (calculatePairwiseRelationship e2 e1).fromSel = (calculatePairwiseRelationship e1 e2).toSel ∧
    (calculatePairwiseRelationship e2 e1).toSel = (calculatePairwiseRelationship e1 e2).fromSel ∧
    (calculatePairwiseRelationship e2 e1).distance.horizontal =
      (calculatePairwiseRelationship e1 e2).distance.horizontal ∧
    (calculatePairwiseRelationship e2 e1).distance.vertical =
      (calculatePairwiseRelationship e1 e2).distance.vertical ∧
    (calculatePairwiseRelationship e2 e1).distance.center_to_center =
      (calculatePairwiseRelationship e1 e2).distance.center_to_center ∧
    ((calculatePairwiseRelationship e2 e1).alignment.top ↔
      (calculatePairwiseRelationship e1 e2).alignment.top) ∧
    ((calculatePairwiseRelationship e2 e1).alignment.bottom ↔
      (calculatePairwiseRelationship e1 e2).alignment.bottom) ∧
    ((calculatePairwiseRelationship e2 e1).alignment.left ↔
      (calculatePairwiseRelationship e1 e2).alignment.left) ∧
    ((calculatePairwiseRelationship e2 e1).alignment.right ↔
      (calculatePairwiseRelationship e1 e2).alignment.right) ∧
    ((calculatePairwiseRelationship e2 e1).alignment.vertical_center ↔
      (calculatePairwiseRelationship e1 e2).alignment.vertical_center) ∧
    ((calculatePairwiseRelationship e2 e1).alignment.horizontal_center ↔
      (calculatePairwiseRelationship e1 e2).alignment.horizontal_center) := by
  simp only [calculatePairwiseRelationship]
  refine ⟨trivial, trivial, ?_, ?_, ?_, ?_, ?_, ?_, ?_, ?_, ?_⟩
  · congr 1
    split_ifs <;> first | rfl | linarith
  · congr 1
    split_ifs <;> first | rfl | linarith
  · congr 2
    ring
  · rw [abs_sub_comm]
  · rw [abs_sub_comm]
  · rw [abs_sub_comm]
  · rw [abs_sub_comm]
  · rw [abs_sub_comm]
  · rw [abs_sub_comm]

/-- C6 witness: the symmetry statement at two concrete nodes. -/
theorem calculatePairwiseRelationship_symm_witness :
    (calculatePairwiseRelationship sampleNodeB sampleNodeA).fromSel =
      (calculatePairwiseRelationship sampleNodeA sampleNodeB).toSel ∧
    (calculatePairwiseRelationship sampleNodeB sampleNodeA).toSel =
      (calculatePairwiseRelationship sampleNodeA sampleNodeB).fromSel ∧
    (calculatePairwiseRelationship sampleNodeB sampleNodeA).distance.horizontal =
      (calculatePairwiseRelationship sampleNodeA sampleNodeB).distance.horizontal ∧
    (calculatePairwiseRelationship sampleNodeB sampleNodeA).distance.vertical =
      (calculatePairwiseRelationship sampleNodeA sampleNodeB).distance.vertical ∧
    (calculatePairwiseRelationship sampleNodeB sampleNodeA).distance.center_to_center =
      (calculatePairwiseRelationship sampleNodeA sampleNodeB).distance.center_to_center ∧
    ((calculatePairwiseRelationship sampleNodeB sampleNodeA).alignment.top ↔
      (calculatePairwiseRelationship sampleNodeA sampleNodeB).alignment.top) ∧
    ((calculatePairwiseRelationship sampleNodeB sampleNodeA).alignment.bottom ↔
      (calculatePairwiseRelationship sampleNodeA sampleNodeB).alignment.bottom) ∧
    ((calculatePairwiseRelationship sampleNodeB sampleNodeA).alignment.left ↔
      (calculatePairwiseRelationship sampleNodeA sampleNodeB).alignment.left) ∧
    ((calculatePairwiseRelationship sampleNodeB sampleNodeA).alignment.right ↔
      (calculatePairwiseRelationship sampleNodeA sampleNodeB).alignment.right) ∧
    ((calculatePairwiseRelationship sampleNodeB sampleNodeA).alignment.vertical_center ↔
      (calculatePairwiseRelationship sampleNodeA sampleNodeB).alignment.vertical_center) ∧
    ((calculatePairwiseRelationship sampleNodeB sampleNodeA).alignment.horizontal_center ↔
      (calculatePairwiseRelationship sampleNodeA sampleNodeB).alignment.horizontal_center) :=
  calculatePairwiseRelationship_symm sampleNodeA sampleNodeB
    (by norm_num [sampleNodeA]) (by norm_num [sampleNodeA])
    (by norm_num [sampleNodeB]) (by norm_num [sampleNodeB])

/-- Primary outcome of the orchestrator body is independent of the cleanup
oracle: no branch of the body reads a cleanup flag. -/
theorem dispatchInspect_fst (ob : BodyOracle) (oc oc2 : CleanupOracle) :
    (dispatchInspect ob oc).1 = (dispatchInspect ob oc2).1 := by
  simp only [dispatchInspect, inspectSingleElementM, inspectMultipleElementsM]
  split_ifs <;> rfl

/-- After the single-element path, the page zoom is back at 1 whenever the
zoom-reset call does not itself fail. -/
theorem singleM_zoom (ob : BodyOracle) (oc : CleanupOracle) (s : PageState)
    (h : oc.resetZoomFail = false) (hs : s.pageZoom = 1) :
    ((inspectSingleElementM ob oc s).2).pageZoom = 1 := by
  simp only [inspectSingleElementM, runFinallySingle, singleBody]
  split_ifs <;> simp_all

/-- After the multi-element path, the page zoom is back at 1 whenever the
zoom-reset call does not itself fail. -/
theorem multiM_zoom (ob : BodyOracle) (oc : CleanupOracle) (s : PageState)
    (h : oc.resetZoomFail = false) (hs : s.pageZoom = 1) :
    ((inspectMultipleElementsM ob oc s).2).pageZoom = 1 := by
  simp only [inspectMultipleElementsM, runFinallyMulti, multiBody]
  split_ifs <;> simp_all

/-- C8: on every exit path of `inspectElement` — any body outcome under any
oracle — the primary result or error is the same whether or not cleanup
calls fail (cleanup failures are swallowed and never mask it); when the
outer marker-cleanup call succeeds the temporary marker attributes are gone,
and when the zoom-reset call succeeds the page zoom is 1 on return. -/
theorem inspectElement_cleanup_guarantees (ob : BodyOracle) (oc : CleanupOracle) :
    (inspectElementM ob oc).1 = (inspectElementM ob cleanCleanupOracle).1 ∧
    (oc.outerCleanupFail = false → ((inspectElementM ob oc).2).markers = false) ∧
    (oc.resetZoomFail = false → ((inspectElementM ob oc).2).pageZoom = 1) := by
  refine ⟨dispatchInspect_fst ob oc cleanCleanupOracle, ?_, ?_⟩
  · intro h
    simp [inspectElementM, h]
  · intro h
    have hz : ((dispatchInspect ob oc).2).pageZoom = 1 := by
      simp only [dispatchInspect]
      split_ifs
      · rfl
      · rfl
      · rfl
      · rfl
      · rfl
      · exact singleM_zoom ob oc _ h rfl
      · exact multiM_zoom ob oc _ h rfl
    simp only [inspectElementM]
    split_ifs <;> simpa using hz

/-- C8 witness: a successful zooming single-element inspection with a failing
inner cleanup still returns the clean-oracle outcome, with markers removed
and zoom reset. -/
theorem inspectElement_cleanup_witness :
    (inspectElementM sampleBodyOracle sampleCleanupOracle).1 =
      (inspectElementM sampleBodyOracle cleanCleanupOracle).1 ∧
    ((inspectElementM sampleBodyOracle sampleCleanupOracle).2).markers = false ∧
    ((inspectElementM sampleBodyOracle sampleCleanupOracle).2).pageZoom = 1 :=
  ⟨(inspectElement_cleanup_guarantees sampleBodyOracle sampleCleanupOracle).1,
   (inspectElement_cleanup_guarantees sampleBodyOracle sampleCleanupOracle).2.1 rfl,
   (inspectElement_cleanup_guarantees sampleBodyOracle sampleCleanupOracle).2.2 rfl⟩

end InspectMcp
